import Mathlib

/-!
Verification of the Foxpass MAC-update client (`foxpass_mac_update.py`,
`utils.py`): a shallow embedding of the generic REST client (`Foxpass`),
the domain client (`MacFoxpass`) and the CLI driver, with theorems about
their behaviour.

HTTP I/O is modelled by passing the server's responses in explicitly
(one `Response` per request the code makes, in order) and by returning
the list of requests an operation issues, so that "issues exactly one
PUT to URL u with payload p" is a statement about that list.
-/

set_option autoImplicit false

/-- JSON-ish Python values as they occur in this program.  `null` stands
for Python `None` (also the value of an implicit `return`). -/
inductive Json where
  | null : Json
  | str : String → Json
  | arr : List Json → Json
  | obj : List (String × Json) → Json
deriving Repr

/-- Python `d.get(key, default)` on a dict; any non-dict receiver yields
the default (the program only calls `.get` on parsed JSON objects). -/
def Json.getD (j : Json) (key : String) (d : Json) : Json :=
  match j with
  | .obj fields =>
    match fields.find? (fun p => p.1 == key) with
    | some p => p.2
    | none => d
  | _ => d

/-- Python truthiness of the values above: `None`, `""`, `[]`, `{}` are
falsy, everything else is truthy. -/
def Json.truthy : Json → Bool
  | .null => false
  | .str s => s != ""
  | .arr xs => !xs.isEmpty
  | .obj fields => !fields.isEmpty

/-- Python `j == s` for a string literal `s`: true exactly when `j` is
that string (any non-string compares unequal). -/
def Json.isStr (j : Json) (s : String) : Bool :=
  match j with
  | .str t => t == s
  | _ => false

/-- The elements a Python `list.extend` would take from a JSON array
(`data.get('data', [])` is always an array in the wire protocol). -/
def Json.elems : Json → List Json
  | .arr xs => xs
  | _ => []

/-- An HTTP response: status code and parsed JSON body. -/
structure Response where
  status_code : Nat
  body : Json
deriving Repr

/-- A request the client issues: method, full URL, and JSON payload
(`none` for GET/DELETE, which send no body). -/
structure Request where
  method : String
  url : String
  payload : Option Json
deriving Repr

/-- Python `headers['k'] = v` on a dict kept as an association list:
replace the first binding of the key, or append a new one. -/
def dictSet : List (String × String) → String → String → List (String × String)
  | [], k, v => [(k, v)]
  | (k', v') :: rest, k, v =>
    if k' = k then (k, v) :: rest else (k', v') :: dictSet rest k v

namespace Foxpass

/-- `Foxpass.BASE_URL`. -/
def BASE_URL : String := "https://api.foxpass.com/v1/"

/-- The mutable per-instance state: the shared header dict built in
`Foxpass.__init__`. -/
structure State where
  headers : List (String × String)
deriving Repr, DecidableEq

/-- `Foxpass.__init__(api_key)`. -/
def init (api_key : String) : State :=
  { headers := [("accept", "application/json"),
                ("Authorization", "Token " ++ api_key)] }

/-- The `while url:` loop of `Foxpass.all`, one `Response` consumed per
GET issued.  `url` is a `Json` because after the first page it is
`data.get('next')` (a string or `None`); the loop runs while it is
truthy.  Running out of supplied responses while the loop would still
continue yields `none` ("did not terminate within that many requests");
a normal exit (falsy url, or a non-200 `break`) yields the accumulated
list. -/
def allLoop : List Response → Json → List Json → Option (List Json)
  | [], url, acc => if url.truthy then none else some acc
  | r :: rest, url, acc =>
    if url.truthy = false then some acc
    else if r.status_code ≠ 200 then some acc
    else if (r.body.getD "status" Json.null).isStr "ok" then
      allLoop rest (r.body.getD "next" Json.null)
        (acc ++ (r.body.getD "data" (Json.arr [])).elems)
    else
      -- HTTP 200 but envelope status ≠ "ok": only logs; url unchanged
      allLoop rest url acc

/-- `Foxpass.all(endpoint)`: headers are read but never written, so the
state passes through unchanged. -/
def all (st : State) (endpoint : String) (responses : List Response) :
    State × Option (List Json) :=
  (st, allLoop responses (Json.str (BASE_URL ++ endpoint)) [])

/-- `Foxpass.get(endpoint, item)`: one GET; `{}` on non-200, the `data`
sub-value when the envelope status is "ok", and Python `None` (the
implicit return) on 200 with a non-"ok" envelope. -/
def get (st : State) (endpoint item : String) (resp : Response) :
    State × List Request × Json :=
  (st, [{ method := "GET", url := BASE_URL ++ endpoint ++ item, payload := none }],
   if resp.status_code ≠ 200 then Json.obj []
   else if (resp.body.getD "status" Json.null).isStr "ok" then
     resp.body.getD "data" Json.null
   else Json.null)

/-- `Foxpass.create(endpoint, data)`: sets `Content-Type` on the shared
header dict, then one POST; returns the full body on 200, `{}`
otherwise. -/
def create (st : State) (endpoint : String) (data : Json) (resp : Response) :
    State × List Request × Json :=
  ({ headers := dictSet st.headers "Content-Type" "application/json" },
   [{ method := "POST", url := BASE_URL ++ endpoint, payload := some data }],
   if resp.status_code ≠ 200 then Json.obj [] else resp.body)

/-- `Foxpass.update(endpoint, item, data)`: one PUT; returns the full
body on 200 and Python `None` (implicit return) otherwise.  It does not
touch the header dict. -/
def update (st : State) (endpoint item : String) (data : Json) (resp : Response) :
    State × List Request × Json :=
  (st, [{ method := "PUT", url := BASE_URL ++ endpoint ++ item, payload := some data }],
   if resp.status_code ≠ 200 then Json.null else resp.body)

/-- `Foxpass.delete(endpoint, item)`: one DELETE to the URL with a
trailing slash appended; returns the full body on 200 and Python `None`
otherwise. -/
def delete (st : State) (endpoint item : String) (resp : Response) :
    State × List Request × Json :=
  (st, [{ method := "DELETE", url := BASE_URL ++ endpoint ++ item ++ "/", payload := none }],
   if resp.status_code ≠ 200 then Json.null else resp.body)

end Foxpass

namespace MacFoxpass

/-- `MacFoxpass.ENDPOINT`. -/
def ENDPOINT : String := "mac_entries/"

/-- `MacFoxpass.get_mac_group(group_name)`. -/
def get_mac_group (st : Foxpass.State) (group_name : String) (resp : Response) :
    Foxpass.State × List Request × Json :=
  Foxpass.get st ENDPOINT group_name resp

/-- `MacFoxpass.add_mac_entry(group_name, mac_address)`: an update (PUT)
on endpoint `ENDPOINT`, item `<group>/prefixes/`, payload
`{'prefix': mac_address}`. -/
def add_mac_entry (st : Foxpass.State) (group_name mac_address : String)
    (resp : Response) : Foxpass.State × List Request × Json :=
  Foxpass.update st ENDPOINT (group_name ++ "/prefixes/")
    (Json.obj [("prefix", Json.str mac_address)]) resp

end MacFoxpass

/-- A well-formed page of the paginated wire protocol: HTTP 200,
envelope status "ok", a `data` array, and an optional `next` URL. -/
structure Page where
  data : List Json
  next : Option String

/-- The value `data.get('next')` takes on this page: the URL, or `None`
when the field is absent. -/
def Page.nextJson (p : Page) : Json :=
  match p.next with
  | none => Json.null
  | some s => Json.str s

/-- The HTTP response carrying this page. -/
def Page.response (p : Page) : Response :=
  { status_code := 200,
    body := Json.obj ([("status", Json.str "ok"), ("data", Json.arr p.data)] ++
      (match p.next with
       | none => []
       | some s => [("next", Json.str s)])) }

/-- A nonempty page sequence in which every page but the last carries a
truthy `next` URL and the last page's `next` is absent or empty. -/
def chainedPages : List Page → Bool
  | [] => false
  | [p] => !p.nextJson.truthy
  | p :: rest => p.nextJson.truthy && chainedPages rest

/-- Python's default `str.strip` whitespace characters. -/
def isSpaceChar (c : Char) : Bool :=
  c = ' ' || c = '\t' || c = '\n' || c = '\r' || c = '\x0b' || c = '\x0c'

/-- Python `line.strip()`. -/
def pyStrip (s : String) : String :=
  String.mk (((s.data.dropWhile isSpaceChar).reverse.dropWhile isSpaceChar).reverse)

/-- Splits a character list on a separator character (Python
`s.split(sep)` restricted to a one-character separator). -/
def splitChar (sep : Char) : List Char → List (List Char)
  | [] => [[]]
  | c :: rest =>
    if c = sep then [] :: splitChar sep rest
    else
      match splitChar sep rest with
      | [] => [[c]]
      | g :: gs => (c :: g) :: gs

/-- Groups a character list into consecutive pairs (a trailing lone
character stays as a singleton group and fails octet validation). -/
def pairChunks : List Char → List (List Char)
  | a :: b :: rest => [a, b] :: pairChunks rest
  | [] => []
  | [a] => [[a]]

/-- A hexadecimal digit, either case. -/
def isHexDigitChar (c : Char) : Bool :=
  c.isDigit || ('a' ≤ c && c ≤ 'f') || ('A' ≤ c && c ≤ 'F')

/-- One MAC octet: exactly two hex digits. -/
def isOctet (t : List Char) : Bool :=
  t.length == 2 && t.all isHexDigitChar

/-- Lower-cases the hex letters A–F (the only upper-case characters a
validated octet can contain). -/
def lowerHex (c : Char) : Char :=
  if c = 'A' then 'a'
  else if c = 'B' then 'b'
  else if c = 'C' then 'c'
  else if c = 'D' then 'd'
  else if c = 'E' then 'e'
  else if c = 'F' then 'f'
  else c

/-- Joins character groups with `':'` between them. -/
def joinColon : List (List Char) → List Char
  | [] => []
  | [g] => g
  | g :: gs => g ++ ':' :: joinColon gs

namespace MacAddress

/-- Modelled from the spec: the `MacAddress` class is imported from the
external `mac` module, which is not among the repository sources.  Per
the spec, construction succeeds exactly on six 2-hex-digit octets
separated by a consistent delimiter (colon, dash, or none),
case-insensitively, and the normalized form (lower-case,
colon-separated) is the only attribute used afterwards.  `none` stands
for the `ValueError` the constructor raises on invalid input. -/
def mk? (s : String) : Option String :=
  let cs := s.data
  let parts : List (List Char) :=
    if cs.contains ':' then splitChar ':' cs
    else if cs.contains '-' then splitChar '-' cs
    else pairChunks cs
  if parts.length == 6 && parts.all isOctet then
    some (String.mk (joinColon (parts.map (List.map lowerHex))))
  else none

end MacAddress

/-- The warning the driver logs for a line that fails MAC validation. -/
def invalidMacMsg (mac_address file : String) : String :=
  "MAC Address " ++ mac_address ++ " provided in " ++ file ++ " is not valid. Skipping."

/-- The critical message for a nonexistent group. -/
def missingGroupMsg (group : String) : String :=
  "Group <" ++ group ++ "> does not exist. Please create it first."

/-- The critical message for a missing `--mac-address-file` argument. -/
def missingFileMsg : String :=
  "Please specify the filename containing the MAC addresses to add with --mac-address-file [filename.txt]."

/-- The single PUT request `add_mac_entry group nm` issues. -/
def addRequest (group nm : String) : Request :=
  { method := "PUT",
    url := Foxpass.BASE_URL ++ MacFoxpass.ENDPOINT ++ (group ++ "/prefixes/"),
    payload := some (Json.obj [("prefix", Json.str nm)]) }

/-- The observable outcome of one run of the `__main__` block: the
requests issued (group lookup and entry additions separately), the
warnings and critical messages logged, and the process exit status. -/
structure DriverOutcome where
  groupCalls : List Request
  addCalls : List Request
  warnings : List String
  criticals : List String
  exitCode : Nat

/-- The driver's `for mac_address in mac_addresses:` loop.  An invalid
line logs one warning and continues; a valid one issues one
`add_mac_entry` call (consuming the next response) and discards the
result. -/
def processMacs (st : Foxpass.State) (group file : String) :
    List String → (Nat → Response) → List Request × List String
  | [], _ => ([], [])
  | m :: rest, resps =>
    match MacAddress.mk? m with
    | none =>
      let r := processMacs st group file rest resps
      (r.1, invalidMacMsg m file :: r.2)
    | some nm =>
      let call := MacFoxpass.add_mac_entry st group nm (resps 0)
      let r := processMacs call.1 group file rest (fun n => resps (n + 1))
      (call.2.1 ++ r.1, r.2)

/-- The `__main__` block for a run where the API key is present.
`mac_group`/`mac_address_file` equal to `""` model an absent (falsy)
argument; `fileLines` are the lines of the input file; `groupResp` is
the server's answer to the group lookup and `addResps` its answers to
the successive entry additions.  Falling off the end of the script is
exit status 0; `raise SystemExit(1)` is exit status 1. -/
def driverRun (api_key mac_group mac_address_file : String)
    (fileLines : List String) (groupResp : Response)
    (addResps : Nat → Response) : DriverOutcome :=
  if mac_group = "" then
    { groupCalls := [], addCalls := [], warnings := [], criticals := [], exitCode := 0 }
  else if mac_address_file = "" then
    { groupCalls := [], addCalls := [], warnings := [],
      criticals := [missingFileMsg], exitCode := 1 }
  else
    let g := MacFoxpass.get_mac_group (Foxpass.init api_key) mac_group groupResp
    if g.2.2.truthy = false then
      { groupCalls := g.2.1, addCalls := [], warnings := [],
        criticals := [missingGroupMsg mac_group], exitCode := 1 }
    else
      let mac_addresses := (fileLines.filter (fun l => pyStrip l != "")).map pyStrip
      let r := processMacs g.1 mac_group mac_address_file mac_addresses addResps
      { groupCalls := g.2.1, addCalls := r.1, warnings := r.2,
        criticals := [], exitCode := 0 }

/-- Python dict lookup on the header association list. -/
def lookupHeader (h : List (String × String)) (k : String) : Option (String × String) :=
  h.find? (fun p => p.1 == k)

theorem Page.response_statusOk (p : Page) :
    ((p.response).body.getD "status" Json.null).isStr "ok" = true := by
  rcases p with ⟨d, _ | s⟩ <;> rfl

theorem Page.response_data (p : Page) :
    (p.response).body.getD "data" (Json.arr []) = Json.arr p.data := by
  rcases p with ⟨d, _ | s⟩ <;> rfl

theorem Page.response_next (p : Page) :
    (p.response).body.getD "next" Json.null = p.nextJson := by
  rcases p with ⟨d, _ | s⟩ <;> rfl

theorem baseUrl_truthy (endpoint : String) :
    (Json.str (Foxpass.BASE_URL ++ endpoint)).truthy = true := by
  have h : Foxpass.BASE_URL ++ endpoint ≠ "" := by
    intro he
    have hl : (Foxpass.BASE_URL ++ endpoint).length = 0 := by rw [he]; rfl
    rw [String.length_append] at hl
    have hb : Foxpass.BASE_URL.length = 27 := by decide
    omega
  simpa [Json.truthy, bne_iff_ne] using h

theorem allLoop_cons_ok (p : Page) (rest : List Response) (url : Json)
    (acc : List Json) (hu : url.truthy = true) :
    Foxpass.allLoop (p.response :: rest) url acc =
      Foxpass.allLoop rest p.nextJson (acc ++ p.data) := by
  rcases p with ⟨d, _ | s⟩ <;>
    simp [Foxpass.allLoop, hu, Page.response, Page.nextJson, Json.getD,
      Json.elems, Json.isStr]

theorem allLoop_chained (pages : List Page) :
    ∀ (url : Json) (acc : List Json), url.truthy = true →
    chainedPages pages = true →
    Foxpass.allLoop (pages.map Page.response) url acc =
      some (acc ++ (pages.map Page.data).flatten) := by
  induction pages with
  | nil =>
    intro url acc hu hc
    simp [chainedPages] at hc
  | cons p rest ih =>
    intro url acc hu hc
    rw [List.map_cons, allLoop_cons_ok p _ _ _ hu]
    cases rest with
    | nil =>
      have hn : p.nextJson.truthy = false := by
        simpa [chainedPages] using hc
      simp [Foxpass.allLoop, hn]
    | cons q rest' =>
      have hc' : p.nextJson.truthy = true ∧ chainedPages (q :: rest') = true := by
        simpa [chainedPages, Bool.and_eq_true] using hc
      rw [ih _ _ hc'.1 hc'.2]
      simp

theorem allLoop_break (pages : List Page) :
    ∀ (bad : Response) (rest : List Response) (url : Json) (acc : List Json),
      url.truthy = true → (∀ p ∈ pages, p.nextJson.truthy = true) →
      bad.status_code ≠ 200 →
      Foxpass.allLoop (pages.map Page.response ++ bad :: rest) url acc =
        some (acc ++ (pages.map Page.data).flatten) := by
  induction pages with
  | nil =>
    intro bad rest url acc hu _ hb
    simp [Foxpass.allLoop, hu, hb]
  | cons p ps ih =>
    intro bad rest url acc hu hn hb
    rw [List.map_cons, List.cons_append, allLoop_cons_ok p _ _ _ hu]
    rw [ih bad rest _ _ (hn p (by simp)) (fun q hq => hn q (by simp [hq])) hb]
    simp

theorem allLoop_never_ok (rs : List Response) :
    ∀ (url : Json) (acc : List Json), url.truthy = true →
    (∀ r ∈ rs, r.status_code = 200 ∧
      ((r.body.getD "status" Json.null).isStr "ok") = false) →
    Foxpass.allLoop rs url acc = none := by
  induction rs with
  | nil =>
    intro url acc hu _
    simp [Foxpass.allLoop, hu]
  | cons r rest ih =>
    intro url acc hu h
    have h1 := h r (by simp)
    have h2 := ih url acc hu (fun q hq => h q (by simp [hq]))
    simpa [Foxpass.allLoop, hu, h1.1, h1.2] using h2

theorem dictSet_idem (h : List (String × String)) (k v : String) :
    dictSet (dictSet h k v) k v = dictSet h k v := by
  induction h with
  | nil => simp [dictSet]
  | cons p rest ih =>
    rcases p with ⟨k', v'⟩
    by_cases hk : k' = k
    · simp [dictSet, hk]
    · simp [dictSet, hk, ih]

theorem dictSet_find?_ne (h : List (String × String)) (k v k' : String)
    (hne : k' ≠ k) :
    (dictSet h k v).find? (fun p => p.1 == k') = h.find? (fun p => p.1 == k') := by
  induction h with
  | nil =>
    have hf : (k == k') = false := beq_eq_false_iff_ne.mpr (Ne.symm hne)
    simp [dictSet, List.find?, hf]
  | cons p rest ih =>
    rcases p with ⟨a, b⟩
    by_cases ha : a = k
    · subst ha
      have hf : (a == k') = false := beq_eq_false_iff_ne.mpr (Ne.symm hne)
      simp [dictSet, List.find?, hf]
    · simp [dictSet, ha, List.find?]
      cases hab : (a == k') <;> simp [hab, ih]

theorem processMacs_spec (group file : String) (ms : List String) :
    ∀ (st : Foxpass.State) (resps : Nat → Response),
    processMacs st group file ms resps =
      ((ms.filterMap MacAddress.mk?).map (addRequest group),
       (ms.filter (fun m => (MacAddress.mk? m).isNone)).map
         (fun m => invalidMacMsg m file)) := by
  induction ms with
  | nil => intro st resps; rfl
  | cons m rest ih =>
    intro st resps
    cases h : MacAddress.mk? m with
    | none =>
      simp [processMacs, h, ih]
    | some nm =>
      simp [processMacs, h, ih, addRequest, MacFoxpass.add_mac_entry,
        Foxpass.update]

/-- Claim C1: for every group name `g` and MAC address string `m`,
`add_mac_entry(g, m)` issues exactly one PUT request to the URL formed
from the base URL, the endpoint `mac_entries/`, and the item
`<g>/prefixes/`, with JSON payload `{"prefix": m}`, and returns the
parsed JSON body when the HTTP status is 200. -/
theorem add_mac_entry_one_put (st : Foxpass.State) (g m : String)
    (resp : Response) (h : resp.status_code = 200) :
    MacFoxpass.add_mac_entry st g m resp =
      (st,
       [{ method := "PUT",
          url := Foxpass.BASE_URL ++ "mac_entries/" ++ g ++ "/prefixes/",
          payload := some (Json.obj [("prefix", Json.str m)]) }],
       resp.body) := by
  simp [MacFoxpass.add_mac_entry, Foxpass.update, MacFoxpass.ENDPOINT, h,
    String.append_assoc]

theorem add_mac_entry_one_put_witness :
    MacFoxpass.add_mac_entry (Foxpass.init "k") "office" "aa:bb:cc:dd:ee:ff"
        { status_code := 200, body := Json.obj [("status", Json.str "ok")] } =
      (Foxpass.init "k",
       [{ method := "PUT",
          url := Foxpass.BASE_URL ++ "mac_entries/" ++ "office" ++ "/prefixes/",
          payload := some (Json.obj [("prefix", Json.str "aa:bb:cc:dd:ee:ff")]) }],
       Json.obj [("status", Json.str "ok")]) :=
  add_mac_entry_one_put (Foxpass.init "k") "office" "aa:bb:cc:dd:ee:ff"
    { status_code := 200, body := Json.obj [("status", Json.str "ok")] } rfl

/-- Claim C2: for every sequence of pages in which each response has
HTTP status 200 and envelope status "ok", `Foxpass.all` returns the
concatenation of the pages' `data` arrays in server order, following
each page's `next` URL, and stops exactly when a page's `next` field is
absent or empty. -/
theorem all_concat_pages (st : Foxpass.State) (endpoint : String)
    (pages : List Page) (hc : chainedPages pages = true) :
    (Foxpass.all st endpoint (pages.map Page.response)).2 =
      some ((pages.map Page.data).flatten) := by
  show Foxpass.allLoop (pages.map Page.response)
      (Json.str (Foxpass.BASE_URL ++ endpoint)) [] = _
  rw [allLoop_chained pages _ _ (baseUrl_truthy endpoint) hc]
  simp

theorem all_concat_pages_witness :
    (Foxpass.all (Foxpass.init "k") "mac_entries/"
        (([⟨[Json.str "a1", Json.str "a2"], some "https://api.foxpass.com/v1/mac_entries/?page=2"⟩,
           ⟨[Json.str "b1"], some "https://api.foxpass.com/v1/mac_entries/?page=3"⟩,
           ⟨[Json.str "c1"], none⟩] : List Page).map Page.response)).2 =
      some [Json.str "a1", Json.str "a2", Json.str "b1", Json.str "c1"] := by
  have h := all_concat_pages (Foxpass.init "k") "mac_entries/"
    [⟨[Json.str "a1", Json.str "a2"], some "https://api.foxpass.com/v1/mac_entries/?page=2"⟩,
     ⟨[Json.str "b1"], some "https://api.foxpass.com/v1/mac_entries/?page=3"⟩,
     ⟨[Json.str "c1"], none⟩] (by decide)
  simpa using h

/-- Claim C3: for every pagination run in which some page returns an
HTTP status other than 200, `Foxpass.all` raises no error and returns
exactly the data accumulated from the pages before the failing one; in
particular it returns the empty sequence when the very first request
fails. -/
theorem all_truncates_on_http_error (st : Foxpass.State) (endpoint : String)
    (pages : List Page) (bad : Response) (rest : List Response)
    (hn : ∀ p ∈ pages, p.nextJson.truthy = true)
    (hb : bad.status_code ≠ 200) :
    (Foxpass.all st endpoint (pages.map Page.response ++ bad :: rest)).2 =
      some ((pages.map Page.data).flatten) := by
  show Foxpass.allLoop (pages.map Page.response ++ bad :: rest)
      (Json.str (Foxpass.BASE_URL ++ endpoint)) [] = _
  rw [allLoop_break pages bad rest _ _ (baseUrl_truthy endpoint) hn hb]
  simp

theorem all_truncates_on_http_error_witness :
    (Foxpass.all (Foxpass.init "k") "mac_entries/"
        (([⟨[Json.str "p1"], some "https://api.foxpass.com/v1/mac_entries/?page=2"⟩] :
            List Page).map Page.response ++
          [{ status_code := 500, body := Json.obj [] }])).2 =
      some [Json.str "p1"] ∧
    (Foxpass.all (Foxpass.init "k") "mac_entries/"
        (([] : List Page).map Page.response ++
          [{ status_code := 500, body := Json.obj [] }])).2 =
      some [] := by
  constructor
  · have h := all_truncates_on_http_error (Foxpass.init "k") "mac_entries/"
      [⟨[Json.str "p1"], some "https://api.foxpass.com/v1/mac_entries/?page=2"⟩]
      { status_code := 500, body := Json.obj [] } [] (by decide) (by decide)
    simpa using h
  · have h := all_truncates_on_http_error (Foxpass.init "k") "mac_entries/"
      [] { status_code := 500, body := Json.obj [] } [] (by decide) (by decide)
    simpa using h

/-- Claim C4: the `all` loop terminates only by URL exhaustion or a
non-200 status: a response with HTTP 200 but envelope status ≠ "ok"
leaves the loop state (URL and accumulator) unchanged, so a response
sequence that forever answers 200 with a non-"ok" envelope makes the
loop run forever (here: it exhausts every finite response supply
without terminating). -/
theorem all_diverges_on_bad_envelope (st : Foxpass.State)
    (endpoint : String) (r : Response) (rest rs : List Response)
    (url : Json) (acc : List Json) (hu : url.truthy = true)
    (hr : r.status_code = 200)
    (hok : ((r.body.getD "status" Json.null).isStr "ok") = false)
    (hall : ∀ q ∈ rs, q.status_code = 200 ∧
      ((q.body.getD "status" Json.null).isStr "ok") = false) :
    Foxpass.allLoop (r :: rest) url acc = Foxpass.allLoop rest url acc ∧
    (Foxpass.all st endpoint rs).2 = none := by
  constructor
  · simp [Foxpass.allLoop, hu, hr, hok]
  · show Foxpass.allLoop rs (Json.str (Foxpass.BASE_URL ++ endpoint)) [] = none
    exact allLoop_never_ok rs _ _ (baseUrl_truthy endpoint) hall

theorem all_diverges_on_bad_envelope_witness :
    Foxpass.allLoop
        [{ status_code := 200, body := Json.obj [("status", Json.str "error")] },
         { status_code := 200, body := Json.obj [("status", Json.str "error")] }]
        (Json.str "https://api.foxpass.com/v1/mac_entries/") [] =
      Foxpass.allLoop
        [{ status_code := 200, body := Json.obj [("status", Json.str "error")] }]
        (Json.str "https://api.foxpass.com/v1/mac_entries/") [] ∧
    (Foxpass.all (Foxpass.init "k") "mac_entries/"
        [{ status_code := 200, body := Json.obj [("status", Json.str "error")] },
         { status_code := 200, body := Json.obj [("status", Json.str "error")] }]).2 =
      none :=
  all_diverges_on_bad_envelope (Foxpass.init "k") "mac_entries/"
    { status_code := 200, body := Json.obj [("status", Json.str "error")] }
    [{ status_code := 200, body := Json.obj [("status", Json.str "error")] }]
    [{ status_code := 200, body := Json.obj [("status", Json.str "error")] },
     { status_code := 200, body := Json.obj [("status", Json.str "error")] }]
    (Json.str "https://api.foxpass.com/v1/mac_entries/") []
    (by decide) rfl (by decide) (by decide)

/-- Claim C5, counterexample: on HTTP 200 with an envelope whose status
is not "ok", `Foxpass.get` returns Python `None` (the implicit return),
not an empty mapping, so the claim that it returns an empty mapping in
both failure cases is false. -/
theorem get_bad_envelope_returns_none :
    (Foxpass.get (Foxpass.init "k") "mac_entries/" "office"
        { status_code := 200, body := Json.obj [("status", Json.str "error")] }).2.2 =
      Json.null ∧
    Json.null ≠ Json.obj [] := by
  exact ⟨rfl, by simp⟩

/-- Claim C5 as amended: `Foxpass.get` returns the empty mapping `{}`
when the HTTP status is not 200, returns Python `None` when the status
is 200 but the envelope status is not "ok" (a distinct value, though
both results are falsy and hence indistinguishable by the truthiness
check every caller uses), and returns the envelope's `data` sub-value
when the status is 200 and the envelope status is "ok". -/
theorem get_failure_contract (st : Foxpass.State) (endpoint item : String)
    (resp : Response) :
    (resp.status_code ≠ 200 →
      (Foxpass.get st endpoint item resp).2.2 = Json.obj []) ∧
    (resp.status_code = 200 →
      ((resp.body.getD "status" Json.null).isStr "ok") = false →
      (Foxpass.get st endpoint item resp).2.2 = Json.null) ∧
    (resp.status_code = 200 →
      ((resp.body.getD "status" Json.null).isStr "ok") = true →
      (Foxpass.get st endpoint item resp).2.2 = resp.body.getD "data" Json.null) ∧
    (Json.obj []).truthy = false ∧ Json.null.truthy = false := by
  refine ⟨fun h => by simp [Foxpass.get, h],
    fun h1 h2 => by simp [Foxpass.get, h1, h2],
    fun h1 h2 => by simp [Foxpass.get, h1, h2], rfl, rfl⟩

theorem get_failure_contract_witness :
    (Foxpass.get (Foxpass.init "k") "mac_entries/" "office"
        { status_code := 404, body := Json.obj [] }).2.2 = Json.obj [] ∧
    (Foxpass.get (Foxpass.init "k") "mac_entries/" "office"
        { status_code := 200, body := Json.obj [("status", Json.str "e")] }).2.2 =
      Json.null ∧
    (Foxpass.get (Foxpass.init "k") "mac_entries/" "office"
        { status_code := 200,
          body := Json.obj [("status", Json.str "ok"),
            ("data", Json.obj [("name", Json.str "office")])] }).2.2 =
      Json.obj [("name", Json.str "office")] :=
  ⟨(get_failure_contract (Foxpass.init "k") "mac_entries/" "office"
      { status_code := 404, body := Json.obj [] }).1 (by decide),
   (get_failure_contract (Foxpass.init "k") "mac_entries/" "office"
      { status_code := 200, body := Json.obj [("status", Json.str "e")] }).2.1
      rfl (by decide),
   (get_failure_contract (Foxpass.init "k") "mac_entries/" "office"
      { status_code := 200,
        body := Json.obj [("status", Json.str "ok"),
          ("data", Json.obj [("name", Json.str "office")])] }).2.2.1
      rfl (by decide)⟩

/-- Claim C6: in every run of the CLI driver where the group lookup
returns a falsy result, the process terminates with exit status 1
having issued only the single group GET — no add-entry call, no
warning — and logs the fatal message; hence no add-entry call is ever
issued without a preceding truthy `get_mac_group` result. -/
theorem driver_aborts_on_missing_group (key group file : String)
    (lines : List String) (gresp : Response) (aresps : Nat → Response)
    (hg : group ≠ "") (hf : file ≠ "")
    (hmiss : (MacFoxpass.get_mac_group (Foxpass.init key) group gresp).2.2.truthy
      = false) :
    driverRun key group file lines gresp aresps =
      { groupCalls := [{ method := "GET",
                         url := Foxpass.BASE_URL ++ MacFoxpass.ENDPOINT ++ group,
                         payload := none }],
        addCalls := [], warnings := [],
        criticals := [missingGroupMsg group], exitCode := 1 } := by
  simp only [driverRun]
  rw [if_neg hg, if_neg hf, if_pos hmiss]
  rfl

theorem driver_aborts_on_missing_group_witness :
    driverRun "k" "office" "macs.txt" ["aa:bb:cc:dd:ee:ff"]
        { status_code := 404, body := Json.obj [] }
        (fun _ => { status_code := 200, body := Json.obj [] }) =
      { groupCalls := [{ method := "GET",
                         url := Foxpass.BASE_URL ++ MacFoxpass.ENDPOINT ++ "office",
                         payload := none }],
        addCalls := [], warnings := [],
        criticals := [missingGroupMsg "office"], exitCode := 1 } :=
  driver_aborts_on_missing_group "k" "office" "macs.txt" ["aa:bb:cc:dd:ee:ff"]
    { status_code := 404, body := Json.obj [] }
    (fun _ => { status_code := 200, body := Json.obj [] })
    (by decide) (by decide) (by decide)

/-- Claim C7: `delete` requests `base_url + endpoint + item + "/"` (a
trailing slash is always appended), whereas `get` and `update` request
`base_url + endpoint + item` with no appended slash. -/
theorem delete_trailing_slash_asymmetry (st : Foxpass.State)
    (endpoint item : String) (payload : Json) (r1 r2 r3 : Response) :
    (Foxpass.delete st endpoint item r1).2.1 =
      [{ method := "DELETE",
         url := Foxpass.BASE_URL ++ endpoint ++ item ++ "/", payload := none }] ∧
    (Foxpass.get st endpoint item r2).2.1 =
      [{ method := "GET",
         url := Foxpass.BASE_URL ++ endpoint ++ item, payload := none }] ∧
    (Foxpass.update st endpoint item payload r3).2.1 =
      [{ method := "PUT",
         url := Foxpass.BASE_URL ++ endpoint ++ item, payload := some payload }] :=
  ⟨rfl, rfl, rfl⟩

/-- Claim C8: when the group lookup is truthy, the driver's batch loop
drops blank lines, issues exactly one add-entry call per non-blank line
whose `MacAddress` construction succeeds (in file order, for the
normalized address), logs exactly one warning per non-blank line whose
construction fails without aborting the batch, and exits with status 0.
`MacAddress` itself is modelled from the spec (its module is not in the
repository sources). -/
theorem driver_batch_behavior (key group file : String)
    (lines : List String) (gresp : Response) (aresps : Nat → Response)
    (hg : group ≠ "") (hf : file ≠ "")
    (hok : (MacFoxpass.get_mac_group (Foxpass.init key) group gresp).2.2.truthy
      = true) :
    (driverRun key group file lines gresp aresps).addCalls =
      (((lines.filter (fun l => pyStrip l != "")).map pyStrip).filterMap
        MacAddress.mk?).map (addRequest group) ∧
    (driverRun key group file lines gresp aresps).warnings =
      (((lines.filter (fun l => pyStrip l != "")).map pyStrip).filter
        (fun m => (MacAddress.mk? m).isNone)).map (fun m => invalidMacMsg m file) ∧
    (driverRun key group file lines gresp aresps).exitCode = 0 := by
  have hno : ¬ ((MacFoxpass.get_mac_group (Foxpass.init key) group gresp).2.2.truthy
      = false) := by simp [hok]
  simp only [driverRun]
  rw [if_neg hg, if_neg hf, if_neg hno, processMacs_spec]
  exact ⟨rfl, rfl, rfl⟩

theorem driver_batch_behavior_witness :
    (driverRun "k" "office" "macs.txt"
        ["aa:bb:cc:dd:ee:ff", "not-a-mac", " ", "11-22-33-44-55-66"]
        { status_code := 200,
          body := Json.obj [("status", Json.str "ok"),
            ("data", Json.obj [("name", Json.str "office")])] }
        (fun _ => { status_code := 200, body := Json.obj [] })).addCalls =
      [addRequest "office" "aa:bb:cc:dd:ee:ff",
       addRequest "office" "11:22:33:44:55:66"] ∧
    (driverRun "k" "office" "macs.txt"
        ["aa:bb:cc:dd:ee:ff", "not-a-mac", " ", "11-22-33-44-55-66"]
        { status_code := 200,
          body := Json.obj [("status", Json.str "ok"),
            ("data", Json.obj [("name", Json.str "office")])] }
        (fun _ => { status_code := 200, body := Json.obj [] })).warnings =
      [invalidMacMsg "not-a-mac" "macs.txt"] := by
  have h := driver_batch_behavior "k" "office" "macs.txt"
    ["aa:bb:cc:dd:ee:ff", "not-a-mac", " ", "11-22-33-44-55-66"]
    { status_code := 200,
      body := Json.obj [("status", Json.str "ok"),
        ("data", Json.obj [("name", Json.str "office")])] }
    (fun _ => { status_code := 200, body := Json.obj [] })
    (by decide) (by decide) (by decide)
  exact ⟨by rw [h.1]; rfl, by rw [h.2.1]; rfl⟩

/-- Claim C9, counterexample: `update` does not perform the lazy
`Content-Type` addition the claim attributes to it — on a fresh header
state it leaves the headers exactly as constructed, without any
`Content-Type` field. -/
theorem update_leaves_headers_unchanged :
    (Foxpass.update (Foxpass.init "k") "mac_entries/" "office/prefixes/"
        (Json.obj [("prefix", Json.str "aa:bb:cc:dd:ee:ff")])
        { status_code := 200, body := Json.obj [] }).1 = Foxpass.init "k" ∧
    lookupHeader (Foxpass.init "k").headers "Content-Type" = none :=
  ⟨rfl, rfl⟩

/-- Claim C9 as amended: the only mutation of the shared header mapping
after construction is the lazy, idempotent addition of
`Content-Type: application/json` performed by the `create` operation
alone; `get`, list-all, `update` and `delete` leave the header mapping
unchanged, and no other header field is ever modified. -/
theorem create_only_header_mutation (st : Foxpass.State)
    (endpoint item : String) (d : Json) (r1 r2 r3 r4 r5 : Response)
    (rs : List Response) :
    (Foxpass.create st endpoint d r1).1.headers =
      dictSet st.headers "Content-Type" "application/json" ∧
    (Foxpass.create (Foxpass.create st endpoint d r1).1 endpoint d r2).1 =
      (Foxpass.create st endpoint d r1).1 ∧
    (Foxpass.get st endpoint item r3).1 = st ∧
    (Foxpass.update st endpoint item d r4).1 = st ∧
    (Foxpass.delete st endpoint item r5).1 = st ∧
    (Foxpass.all st endpoint rs).1 = st ∧
    (∀ k, k ≠ "Content-Type" →
      lookupHeader (Foxpass.create st endpoint d r1).1.headers k =
        lookupHeader st.headers k) := by
  refine ⟨rfl, ?_, rfl, rfl, rfl, rfl, ?_⟩
  · simp [Foxpass.create, dictSet_idem]
  · intro k hk
    exact dictSet_find?_ne st.headers "Content-Type" "application/json" k hk

theorem create_only_header_mutation_witness :
    (Foxpass.create (Foxpass.init "k") "mac_entries/"
        (Json.obj [("name", Json.str "office")])
        { status_code := 200, body := Json.obj [] }).1.headers =
      dictSet (Foxpass.init "k").headers "Content-Type" "application/json" ∧
    lookupHeader
        (Foxpass.create (Foxpass.init "k") "mac_entries/"
          (Json.obj [("name", Json.str "office")])
          { status_code := 200, body := Json.obj [] }).1.headers "accept" =
      lookupHeader (Foxpass.init "k").headers "accept" :=
  ⟨(create_only_header_mutation (Foxpass.init "k") "mac_entries/" "x"
      (Json.obj [("name", Json.str "office")])
      { status_code := 200, body := Json.obj [] }
      { status_code := 200, body := Json.obj [] }
      { status_code := 200, body := Json.obj [] }
      { status_code := 200, body := Json.obj [] }
      { status_code := 200, body := Json.obj [] } []).1,
   (create_only_header_mutation (Foxpass.init "k") "mac_entries/" "x"
      (Json.obj [("name", Json.str "office")])
      { status_code := 200, body := Json.obj [] }
      { status_code := 200, body := Json.obj [] }
      { status_code := 200, body := Json.obj [] }
      { status_code := 200, body := Json.obj [] }
      { status_code := 200, body := Json.obj [] } []).2.2.2.2.2.2 "accept"
      (by decide)⟩

/-- Claim C10: the driver discards the result of every `add_mac_entry`
call — the run's observable outcome (requests issued, warnings,
criticals, exit status) is the same whatever responses the add calls
receive, so per-address remote failures are externally
indistinguishable from successes. -/
theorem driver_ignores_add_results (key group file : String)
    (lines : List String) (gresp : Response) (a1 a2 : Nat → Response) :
    driverRun key group file lines gresp a1 =
      driverRun key group file lines gresp a2 := by
  simp only [driverRun, processMacs_spec]
